import Mathlib

/-!
Shallow embedding of the CheckWebsiteLambda repository
(src/WebSite.py and src/lambda_function.py) and proofs about it.

Python values that can appear in a site dictionary are modelled by `Val`
(Python `None`, `str`, `int`, `bool`).  A Python `dict` is modelled as an
association list `Dict` whose `dget` returns the value bound to a key.
The `WebSite` class is a structure whose fields mirror the instance
attributes `_url`, `_http_status`, ... set in `WebSite.__init__`.

Wall-clock readings are external inputs: the probe outcome of
`urllib.request.urlopen` is a `ProbeResult` (the `success` case carries
`round(response_time.total_seconds())` as an integer, the `httpError`
case models an `urllib.error.HTTPError`, the `urlError` case an
`urllib.error.URLError` with `str(ue)` already applied), and the two
`datetime.now(timezone.utc)` readings are passed as the ISO-8601 strings
that the `last_changed` / `last_checked` property setters store.
-/

instance {ε α : Type} [DecidableEq ε] [DecidableEq α] : DecidableEq (Except ε α) :=
  fun a b =>
    match a, b with
    | Except.error e, Except.error f =>
      if h : e = f then Decidable.isTrue (by rw [h])
      else Decidable.isFalse (fun hh => h (Except.error.injEq .. ▸ hh))
    | Except.error _, Except.ok _ => Decidable.isFalse (fun hh => by cases hh)
    | Except.ok _, Except.error _ => Decidable.isFalse (fun hh => by cases hh)
    | Except.ok x, Except.ok y =>
      if h : x = y then Decidable.isTrue (by rw [h])
      else Decidable.isFalse (fun hh => h (Except.ok.injEq .. ▸ hh))

/-- A Python value stored in a site dictionary: `None`, a string, an
integer, or a boolean. -/
inductive Val where
  | none : Val
  | str : String → Val
  | int : Int → Val
  | bool : Bool → Val
deriving Repr, DecidableEq

/-- Python `str(v)` for the values of `Val`, as rendered in f-strings. -/
def Val.pyStr : Val → String
  | Val.none => "None"
  | Val.str s => s
  | Val.int n => toString n
  | Val.bool b => if b then "True" else "False"

/-- Python `bool(v)` (truthiness) for the values of `Val`. -/
def Val.pyTruthy : Val → Bool
  | Val.none => false
  | Val.str s => s ≠ ""
  | Val.int n => n ≠ 0
  | Val.bool b => b

/-- Numeric view used by Python `==`/`!=`: `True`/`False` compare equal
to `1`/`0`. -/
def Val.toIntQ : Val → Option Int
  | Val.int n => some n
  | Val.bool b => some (if b then 1 else 0)
  | _ => Option.none

/-- Python equality `==` on `Val`: numeric cross-type equality between
`int` and `bool`, structural equality otherwise (values of different
non-numeric types are unequal, never a `TypeError`). -/
def pyEq (a b : Val) : Bool :=
  match a.toIntQ, b.toIntQ with
  | some m, some n => m == n
  | _, _ => a == b

/-- A Python dictionary with string keys, as an association list. -/
abbrev Dict := List (String × Val)

/-- Lookup of a key in a `Dict` (`k in d` / `d[k]` view): the value bound
to the first matching key, if any. -/
def dget : Dict → String → Option Val
  | [], _ => Option.none
  | (k', v) :: rest, k => if k' = k then some v else dget rest k

/-- Python `d.get(k, dflt)`. -/
def pyGet (d : Dict) (k : String) (dflt : Val) : Val :=
  (dget d k).getD dflt

/-- The state of `urlparse`'s result that `WebSite.__init__` inspects:
the `scheme` and `netloc` components (empty string when absent). -/
structure UrlParts where
  scheme : String
  netloc : String
deriving Repr, DecidableEq

/-- A character of `urllib.parse.scheme_chars` (ASCII letters, digits,
`+`, `-`, `.`). -/
def schemeChar (c : Char) : Bool :=
  c.isAlpha || c.isDigit || c == '+' || c == '-' || c == '.'

/-- A C0 control character or space, stripped from both ends of the URL
by `urlsplit`. -/
def isC0OrSpace (c : Char) : Bool :=
  decide (c.toNat ≤ 0x20)

/-- Strip leading and trailing C0-control-or-space characters. -/
def stripC0 (l : List Char) : List Char :=
  ((l.dropWhile isC0OrSpace).reverse.dropWhile isC0OrSpace).reverse

/-- Remove the unsafe bytes `\t`, `\r`, `\n` anywhere in the URL, as
`urlsplit` does. -/
def removeUnsafe (l : List Char) : List Char :=
  l.filter (fun c => !(c == '\t' || c == '\r' || c == '\n'))

/-- The `_splitnetloc` helper: the netloc is everything after `//` up to the first
`/`, `?` or `#`. -/
def splitNetloc (l : List Char) : List Char :=
  l.takeWhile (fun c => !(c == '/' || c == '?' || c == '#'))

/-- Scheme extraction of `urlsplit`: if the first `:` is at a positive
index, the first character is an (ASCII) letter and every character
before the `:` is a scheme character, split off the lowercased scheme. -/
def splitScheme (l : List Char) : List Char × List Char :=
  match l.findIdx? (fun c => c == ':') with
  | Option.none => ([], l)
  | some i =>
    if decide (0 < i) && (l.headD ' ').isAlpha && (l.take i).all schemeChar then
      ((l.take i).map Char.toLower, l.drop (i + 1))
    else ([], l)

/-- The scheme/netloc fragment of `urllib.parse.urlparse` on a string:
strip C0 controls and spaces at both ends, drop `\t\r\n`, split off a
scheme, and read the netloc after `//`; a netloc with unbalanced square
brackets raises `ValueError("Invalid IPv6 URL")`, modelled as `error`.
(The deeper bracketed-host validation of very recent CPython versions is
not modelled; no claim depends on it.) -/
def urlparse (url : String) : Except String UrlParts :=
  let cleaned := removeUnsafe (stripC0 url.toList)
  let (scheme, rest) := splitScheme cleaned
  if rest.take 2 == ['/', '/'] then
    let netloc := splitNetloc (rest.drop 2)
    if (netloc.contains '[' && !netloc.contains ']') ||
       (netloc.contains ']' && !netloc.contains '[') then
      Except.error "Invalid IPv6 URL"
    else
      Except.ok { scheme := String.mk scheme, netloc := String.mk netloc }
  else
    Except.ok { scheme := String.mk scheme, netloc := "" }

/-- The state of a `WebSite` object: one field per instance attribute
assigned in `WebSite.__init__` (`_url`, `_http_status`, `_http_reason`,
`_last_checked`, `_last_changed`, `_elapsed_time`, `_is_changed`,
`_is_up`, `_is_slow`), each holding an arbitrary Python value. -/
structure WebSite where
  url : Val
  http_status : Val
  http_reason : Val
  last_checked : Val
  last_changed : Val
  elapsed_time : Val
  is_changed : Val
  is_up : Val
  is_slow : Val
deriving Repr, DecidableEq

/-- The exception raised out of `WebSite.__init__`:
`invalidURL` is the `ValueError(f'Invalid URL provided: {self._url}')`
of the `else` branch; `parseError` is a `ValueError` raised inside
`urlparse` itself; `attributeError` models the `AttributeError` that
`urlparse` raises on a truthy non-string argument. -/
inductive InitError where
  | invalidURL : String → InitError
  | parseError : String → InitError
  | attributeError : String → InitError
deriving Repr, DecidableEq

/-- Constructor `WebSite.__init__(site_obj)`: read `_url` with the dual-keyed lookup
`site_obj.get('url', site_obj.get('_url', None))`, parse it, and when
scheme and netloc are both non-empty fill the remaining attributes with
the analogous dual-keyed lookups (`is_changed` is unconditionally
`False`); otherwise raise `ValueError`.  A non-string falsy `_url`
(`None`, `0`, `False`, handled by `urlparse` as if it were `''`) also
reaches the `ValueError` branch; a truthy non-string raises
`AttributeError` inside `urlparse`. -/
def WebSite.init (site_obj : Dict) : Except InitError WebSite :=
  let url := pyGet site_obj "url" (pyGet site_obj "_url" Val.none)
  let mkSite : Except InitError WebSite :=
    Except.ok
      { url := url
        http_status := pyGet site_obj "http_status" (pyGet site_obj "_http_status" Val.none)
        http_reason := pyGet site_obj "http_reason" (pyGet site_obj "_http_reason" Val.none)
        last_checked := pyGet site_obj "last_checked" (pyGet site_obj "_last_checked" Val.none)
        last_changed := pyGet site_obj "last_changed" (pyGet site_obj "_last_changed" Val.none)
        elapsed_time := pyGet site_obj "elapsed_time" (pyGet site_obj "_elapsed_time" Val.none)
        is_changed := Val.bool false
        is_up := pyGet site_obj "is_up" (pyGet site_obj "_is_up" (Val.bool false))
        is_slow := pyGet site_obj "is_slow" (pyGet site_obj "_is_slow" (Val.bool false)) }
  match url with
  | Val.str s =>
    match urlparse s with
    | Except.error m => Except.error (InitError.parseError m)
    | Except.ok result =>
      if result.scheme ≠ "" ∧ result.netloc ≠ "" then mkSite
      else Except.error (InitError.invalidURL ("Invalid URL provided: " ++ url.pyStr))
  | v =>
    if v.pyTruthy then Except.error (InitError.attributeError "decode")
    else Except.error (InitError.invalidURL ("Invalid URL provided: " ++ v.pyStr))

/-- The `self.__dict__` mapping: the instance attributes of a `WebSite` object under
their underscore-prefixed names, in assignment order. -/
def selfDict (w : WebSite) : Dict :=
  [("_url", w.url), ("_http_status", w.http_status), ("_http_reason", w.http_reason),
   ("_last_checked", w.last_checked), ("_last_changed", w.last_changed),
   ("_elapsed_time", w.elapsed_time), ("_is_changed", w.is_changed),
   ("_is_up", w.is_up), ("_is_slow", w.is_slow)]

/-- Serialization `WebSite.to_dict`: the flat mapping with public key names, in the
order the source builds it. -/
def to_dict (w : WebSite) : Dict :=
  [("url", w.url), ("http_status", w.http_status), ("http_reason", w.http_reason),
   ("is_changed", w.is_changed), ("last_checked", w.last_checked),
   ("last_changed", w.last_changed), ("elapsed_time", w.elapsed_time),
   ("is_up", w.is_up), ("is_slow", w.is_slow)]

/-- The outcome of `urllib.request.urlopen(self._url)`:
`success status reason elapsed` is a response delivered normally
(`elapsed` is `round(response_time.total_seconds())`, `reason` the
server reason phrase, possibly empty); `httpError code reason` is a
raised `urllib.error.HTTPError`; `urlError msg` is a raised
`urllib.error.URLError` with `msg = str(ue)`. -/
inductive ProbeResult where
  | success : Int → String → Int → ProbeResult
  | httpError : Int → String → ProbeResult
  | urlError : String → ProbeResult
deriving Repr, DecidableEq

/-- The `try`/`except` body of `check_website`: overwrite fields of the
working copy `current` according to the probe outcome.  On success:
status, reason (`"OK"` when the server reason is falsy), rounded elapsed
time, `is_up = True`, and `is_slow` from the threshold comparison.  On
`HTTPError`: only status and reason.  On `URLError`: status `"N/A"` and
the stringified error. -/
def probeUpdate (current : WebSite) (slow_response_threshold : Int) :
    ProbeResult → WebSite
  | ProbeResult.success status reason elapsed =>
    let c := { current with
      http_status := Val.int status
      http_reason := Val.str (if reason = "" then "OK" else reason)
      elapsed_time := Val.int elapsed
      is_up := Val.bool true }
    if elapsed > slow_response_threshold then { c with is_slow := Val.bool true }
    else { c with is_slow := Val.bool false }
  | ProbeResult.httpError code reason =>
    { current with http_status := Val.int code, http_reason := Val.str reason }
  | ProbeResult.urlError msg =>
    { current with http_status := Val.str "N/A", http_reason := Val.str msg }

/-- The change-detection step of `check_website`: if
`current.http_status != self._http_status or current.is_slow != self._is_slow`
set `last_changed` to the current UTC timestamp and `is_changed = True`
on the working copy. -/
def detectChange (self current : WebSite) (nowChangedIso : String) : WebSite :=
  if !pyEq current.http_status self.http_status || !pyEq current.is_slow self.is_slow then
    { current with last_changed := Val.str nowChangedIso, is_changed := Val.bool true }
  else current

/-- Method `WebSite.check_website(self, **kwargs)`.  `slowOpt` is
`kwargs.get('SlowResponseSeconds', 5)`; `probe` the probe outcome;
`nowChangedIso` / `nowCheckedIso` the ISO strings stored by the
`last_changed` / `last_checked` setters for the two
`datetime.now(timezone.utc)` calls.  Returns the final value of `self`
(never assigned, every mutation targets the fresh copy
`current = WebSite(self.__dict__)`) paired with the returned
`current.to_dict()` (or the exception out of the copy's constructor). -/
def check_website (self : WebSite) (slowOpt : Option Int) (probe : ProbeResult)
    (nowChangedIso nowCheckedIso : String) : WebSite × Except InitError Dict :=
  let slow_response_threshold := slowOpt.getD 5
  match WebSite.init (selfDict self) with
  | Except.error e => (self, Except.error e)
  | Except.ok current0 =>
    let current1 := probeUpdate current0 slow_response_threshold probe
    let current2 := detectChange self current1 nowChangedIso
    let current3 := { current2 with last_checked := Val.str nowCheckedIso }
    (self, Except.ok (to_dict current3))

/-- The digest body built by `publish_changes` in src/lambda_function.py:
the header line, one line per changed site
(`f"{site.url}: status: {site.http_status} - {site.http_reason}\n"`),
and the status-page footer. -/
def digestMsg (changed_sites : List WebSite) (status_url : String) : String :=
  (changed_sites.foldl
    (fun msg site =>
      msg ++ site.url.pyStr ++ ": status: " ++ site.http_status.pyStr ++ " - " ++
        site.http_reason.pyStr ++ "\n")
    "The following websites are reporting a status change:\n\n")
  ++ "\nYou can view the full website status here: " ++ status_url

/-- Function `publish_changes(changed_sites)`: when the list is non-empty, one
call to `sns.publish` with the digest body (returned as `some`); when it
is empty, no message at all (`none`). -/
def publish_changes (changed_sites : List WebSite) (status_url : String) :
    Option String :=
  if changed_sites.length > 0 then some (digestMsg changed_sites status_url)
  else none

/-- Replace the value stored under `is_changed` by `False`, leaving
every other entry of the flat representation unchanged. -/
def forceIsChangedFalse (d : Dict) : Dict :=
  d.map (fun p => if p.1 = "is_changed" then (p.1, Val.bool false) else p)

/-- The per-site line of the digest body, as one string (used to state
where a site's URL and status sit inside the digest). -/
def lineOf (site : WebSite) : String :=
  site.url.pyStr ++ ": status: " ++ site.http_status.pyStr ++ " - " ++
    site.http_reason.pyStr ++ "\n"

/-- A sample record with a valid URL, reported up and fast. -/
def siteA : WebSite :=
  { url := Val.str "http://example.com", http_status := Val.int 200,
    http_reason := Val.str "OK", last_checked := Val.str "2024-01-01T00:00:00+00:00",
    last_changed := Val.str "2023-12-31T00:00:00+00:00", elapsed_time := Val.int 1,
    is_changed := Val.bool false, is_up := Val.bool true, is_slow := Val.bool false }

/-- A sample record with a valid URL whose previous probe had failed:
`is_up` is `False`. -/
def siteDown : WebSite :=
  { url := Val.str "http://example.com", http_status := Val.str "N/A",
    http_reason := Val.str "timed out", last_checked := Val.none,
    last_changed := Val.none, elapsed_time := Val.none,
    is_changed := Val.bool false, is_up := Val.bool false, is_slow := Val.bool false }

/-- The input mapping of the C10 counterexample: a valid URL and an
explicit `is_changed = True` under both the public and the internal key. -/
def objIC : Dict :=
  [("url", Val.str "http://example.com"), ("is_changed", Val.bool true),
   ("_is_changed", Val.bool true)]

-- Basic sanity checks of the embedding on concrete inputs.
example : urlparse "http://example.com" =
    Except.ok { scheme := "http", netloc := "example.com" } := by decide
example : urlparse "example.com" = Except.ok { scheme := "", netloc := "" } := by
  decide
example : urlparse "http:" = Except.ok { scheme := "http", netloc := "" } := by
  decide
example : WebSite.init (selfDict siteA) =
    Except.ok { siteA with is_changed := Val.bool false } := by decide

/-- Unfolded form of `WebSite.init` (definitional). -/
theorem init_eq (site_obj : Dict) : WebSite.init site_obj =
    (match pyGet site_obj "url" (pyGet site_obj "_url" Val.none) with
     | Val.str s =>
       match urlparse s with
       | Except.error m => Except.error (InitError.parseError m)
       | Except.ok result =>
         if result.scheme ≠ "" ∧ result.netloc ≠ "" then
           Except.ok
             { url := pyGet site_obj "url" (pyGet site_obj "_url" Val.none)
               http_status := pyGet site_obj "http_status" (pyGet site_obj "_http_status" Val.none)
               http_reason := pyGet site_obj "http_reason" (pyGet site_obj "_http_reason" Val.none)
               last_checked := pyGet site_obj "last_checked" (pyGet site_obj "_last_checked" Val.none)
               last_changed := pyGet site_obj "last_changed" (pyGet site_obj "_last_changed" Val.none)
               elapsed_time := pyGet site_obj "elapsed_time" (pyGet site_obj "_elapsed_time" Val.none)
               is_changed := Val.bool false
               is_up := pyGet site_obj "is_up" (pyGet site_obj "_is_up" (Val.bool false))
               is_slow := pyGet site_obj "is_slow" (pyGet site_obj "_is_slow" (Val.bool false)) }
         else
           Except.error (InitError.invalidURL
             ("Invalid URL provided: " ++
               Val.pyStr (pyGet site_obj "url" (pyGet site_obj "_url" Val.none))))
     | v =>
       if v.pyTruthy then Except.error (InitError.attributeError "decode")
       else Except.error (InitError.invalidURL ("Invalid URL provided: " ++ Val.pyStr v))) :=
  rfl

/-- The copy `WebSite(self.__dict__)` inside `check_website` rebuilds the record:
every dual-keyed lookup falls through to the underscore key of
`self.__dict__`, so the working copy carries the previous record's full
attribute set with `is_changed` reset to `False`. -/
theorem init_selfDict_ok (w c : WebSite)
    (h : WebSite.init (selfDict w) = Except.ok c) :
    c = { w with is_changed := Val.bool false } := by
  have h' : (match w.url with
    | Val.str s =>
      match urlparse s with
      | Except.error m => Except.error (InitError.parseError m)
      | Except.ok result =>
        if result.scheme ≠ "" ∧ result.netloc ≠ "" then
          Except.ok { w with is_changed := Val.bool false }
        else Except.error (InitError.invalidURL ("Invalid URL provided: " ++ Val.pyStr w.url))
    | v =>
      if v.pyTruthy then Except.error (InitError.attributeError "decode")
      else Except.error (InitError.invalidURL ("Invalid URL provided: " ++ Val.pyStr v))) =
      Except.ok c := h
  clear h
  split at h'
  · split at h'
    · cases h'
    · split at h'
      · exact (Except.ok.inj h').symm
      · cases h'
  · split at h' <;> cases h'

/-- Running `check_website` on a record whose copy-construction succeeds:
the receiver is returned untouched in the first component, and the
second component is the serialization of the working copy after the
probe branch, change detection and the `last_checked` update. -/
theorem check_website_eq (self c : WebSite) (slowOpt : Option Int)
    (probe : ProbeResult) (nc nk : String)
    (h : WebSite.init (selfDict self) = Except.ok c) :
    check_website self slowOpt probe nc nk =
      (self, Except.ok (to_dict
        { detectChange self (probeUpdate c (slowOpt.getD 5) probe) nc with
            last_checked := Val.str nk })) := by
  unfold check_website
  rw [h]

-- Projections of `probeUpdate`: fields never written by any branch.
theorem probeUpdate_url (c : WebSite) (t : Int) (p : ProbeResult) :
    (probeUpdate c t p).url = c.url := by
  cases p with
  | success status reason elapsed => simp only [probeUpdate]; split <;> rfl
  | httpError code reason => rfl
  | urlError msg => rfl

theorem probeUpdate_last_changed (c : WebSite) (t : Int) (p : ProbeResult) :
    (probeUpdate c t p).last_changed = c.last_changed := by
  cases p with
  | success status reason elapsed => simp only [probeUpdate]; split <;> rfl
  | httpError code reason => rfl
  | urlError msg => rfl

theorem probeUpdate_last_checked (c : WebSite) (t : Int) (p : ProbeResult) :
    (probeUpdate c t p).last_checked = c.last_checked := by
  cases p with
  | success status reason elapsed => simp only [probeUpdate]; split <;> rfl
  | httpError code reason => rfl
  | urlError msg => rfl

theorem probeUpdate_is_changed (c : WebSite) (t : Int) (p : ProbeResult) :
    (probeUpdate c t p).is_changed = c.is_changed := by
  cases p with
  | success status reason elapsed => simp only [probeUpdate]; split <;> rfl
  | httpError code reason => rfl
  | urlError msg => rfl

-- Projections of `probeUpdate` on the success branch.
theorem probeUpdate_success_http_status (c : WebSite) (t status : Int)
    (reason : String) (elapsed : Int) :
    (probeUpdate c t (ProbeResult.success status reason elapsed)).http_status =
      Val.int status := by
  simp only [probeUpdate]; split <;> rfl

theorem probeUpdate_success_is_up (c : WebSite) (t status : Int)
    (reason : String) (elapsed : Int) :
    (probeUpdate c t (ProbeResult.success status reason elapsed)).is_up =
      Val.bool true := by
  simp only [probeUpdate]; split <;> rfl

theorem probeUpdate_success_is_slow (c : WebSite) (t status : Int)
    (reason : String) (elapsed : Int) :
    (probeUpdate c t (ProbeResult.success status reason elapsed)).is_slow =
      Val.bool (decide (elapsed > t)) := by
  simp only [probeUpdate]
  split
  · next hgt => simp [hgt]
  · next hgt => simp [hgt]

-- Projections of `probeUpdate` on the two error branches: the fields the
-- branch does not write keep the working copy's values.
theorem probeUpdate_httpError_fields (c : WebSite) (t code : Int) (reason : String) :
    (probeUpdate c t (ProbeResult.httpError code reason)).http_status = Val.int code ∧
    (probeUpdate c t (ProbeResult.httpError code reason)).http_reason = Val.str reason ∧
    (probeUpdate c t (ProbeResult.httpError code reason)).is_up = c.is_up ∧
    (probeUpdate c t (ProbeResult.httpError code reason)).is_slow = c.is_slow ∧
    (probeUpdate c t (ProbeResult.httpError code reason)).elapsed_time = c.elapsed_time :=
  ⟨rfl, rfl, rfl, rfl, rfl⟩

theorem probeUpdate_urlError_fields (c : WebSite) (t : Int) (msg : String) :
    (probeUpdate c t (ProbeResult.urlError msg)).http_status = Val.str "N/A" ∧
    (probeUpdate c t (ProbeResult.urlError msg)).http_reason = Val.str msg ∧
    (probeUpdate c t (ProbeResult.urlError msg)).is_up = c.is_up ∧
    (probeUpdate c t (ProbeResult.urlError msg)).is_slow = c.is_slow ∧
    (probeUpdate c t (ProbeResult.urlError msg)).elapsed_time = c.elapsed_time :=
  ⟨rfl, rfl, rfl, rfl, rfl⟩

-- Projections of `detectChange`: fields other than `last_changed` and
-- `is_changed` are never written by change detection.
theorem detectChange_http_status (s cur : WebSite) (nc : String) :
    (detectChange s cur nc).http_status = cur.http_status := by
  unfold detectChange; split <;> rfl

theorem detectChange_http_reason (s cur : WebSite) (nc : String) :
    (detectChange s cur nc).http_reason = cur.http_reason := by
  unfold detectChange; split <;> rfl

theorem detectChange_is_up (s cur : WebSite) (nc : String) :
    (detectChange s cur nc).is_up = cur.is_up := by
  unfold detectChange; split <;> rfl

theorem detectChange_is_slow (s cur : WebSite) (nc : String) :
    (detectChange s cur nc).is_slow = cur.is_slow := by
  unfold detectChange; split <;> rfl

theorem detectChange_elapsed_time (s cur : WebSite) (nc : String) :
    (detectChange s cur nc).elapsed_time = cur.elapsed_time := by
  unfold detectChange; split <;> rfl

theorem detectChange_url (s cur : WebSite) (nc : String) :
    (detectChange s cur nc).url = cur.url := by
  unfold detectChange; split <;> rfl

/-- Change detection when the comparison fires. -/
theorem detectChange_pos (s cur : WebSite) (nc : String)
    (h : (!pyEq cur.http_status s.http_status || !pyEq cur.is_slow s.is_slow) = true) :
    (detectChange s cur nc).last_changed = Val.str nc ∧
    (detectChange s cur nc).is_changed = Val.bool true := by
  unfold detectChange
  rw [if_pos h]
  exact ⟨rfl, rfl⟩

/-- Change detection when the comparison does not fire. -/
theorem detectChange_neg (s cur : WebSite) (nc : String)
    (h : (!pyEq cur.http_status s.http_status || !pyEq cur.is_slow s.is_slow) = false) :
    (detectChange s cur nc).last_changed = cur.last_changed ∧
    (detectChange s cur nc).is_changed = cur.is_changed := by
  unfold detectChange
  rw [if_neg (by simp [h])]
  exact ⟨rfl, rfl⟩

-- Lookups in the serialized flat representation.
theorem dget_to_dict_url (w : WebSite) : dget (to_dict w) "url" = some w.url := by
  simp +decide [to_dict, dget]

theorem dget_to_dict_http_status (w : WebSite) :
    dget (to_dict w) "http_status" = some w.http_status := by
  simp +decide [to_dict, dget]

theorem dget_to_dict_http_reason (w : WebSite) :
    dget (to_dict w) "http_reason" = some w.http_reason := by
  simp +decide [to_dict, dget]

theorem dget_to_dict_is_changed (w : WebSite) :
    dget (to_dict w) "is_changed" = some w.is_changed := by
  simp +decide [to_dict, dget]

theorem dget_to_dict_last_checked (w : WebSite) :
    dget (to_dict w) "last_checked" = some w.last_checked := by
  simp +decide [to_dict, dget]

theorem dget_to_dict_last_changed (w : WebSite) :
    dget (to_dict w) "last_changed" = some w.last_changed := by
  simp +decide [to_dict, dget]

theorem dget_to_dict_elapsed_time (w : WebSite) :
    dget (to_dict w) "elapsed_time" = some w.elapsed_time := by
  simp +decide [to_dict, dget]

theorem dget_to_dict_is_up (w : WebSite) : dget (to_dict w) "is_up" = some w.is_up := by
  simp +decide [to_dict, dget]

theorem dget_to_dict_is_slow (w : WebSite) :
    dget (to_dict w) "is_slow" = some w.is_slow := by
  simp +decide [to_dict, dget]

/-- C1: `check_website` sets `is_changed = True` and stamps
`last_changed` with the current UTC timestamp on the working copy
exactly when the probed `http_status` differs from the previous record's
`http_status` or the probed `is_slow` differs from the previous
`is_slow`; when neither differs, `is_changed` stays `False` and
`last_changed` keeps the previous record's value. -/
theorem check_website_change_detection (self c : WebSite) (slowOpt : Option Int)
    (probe : ProbeResult) (nc nk : String)
    (h : WebSite.init (selfDict self) = Except.ok c) :
    ∃ d, (check_website self slowOpt probe nc nk).2 = Except.ok d ∧
      ((pyEq (probeUpdate c (slowOpt.getD 5) probe).http_status self.http_status = false ∨
        pyEq (probeUpdate c (slowOpt.getD 5) probe).is_slow self.is_slow = false) →
        dget d "is_changed" = some (Val.bool true) ∧
        dget d "last_changed" = some (Val.str nc)) ∧
      (pyEq (probeUpdate c (slowOpt.getD 5) probe).http_status self.http_status = true ∧
        pyEq (probeUpdate c (slowOpt.getD 5) probe).is_slow self.is_slow = true →
        dget d "is_changed" = some (Val.bool false) ∧
        dget d "last_changed" = some self.last_changed) := by
  have hc := init_selfDict_ok self c h
  rw [check_website_eq self c slowOpt probe nc nk h]
  refine ⟨_, rfl, ?_, ?_⟩
  · intro hch
    have hcond : (!pyEq (probeUpdate c (slowOpt.getD 5) probe).http_status self.http_status ||
        !pyEq (probeUpdate c (slowOpt.getD 5) probe).is_slow self.is_slow) = true := by
      rcases hch with h1 | h1 <;> simp [h1]
    obtain ⟨hl, hi⟩ := detectChange_pos self (probeUpdate c (slowOpt.getD 5) probe) nc hcond
    rw [dget_to_dict_is_changed, dget_to_dict_last_changed]
    exact ⟨by simp [hi], by simp [hl]⟩
  · rintro ⟨h1, h2⟩
    have hcond : (!pyEq (probeUpdate c (slowOpt.getD 5) probe).http_status self.http_status ||
        !pyEq (probeUpdate c (slowOpt.getD 5) probe).is_slow self.is_slow) = false := by
      simp [h1, h2]
    obtain ⟨hl, hi⟩ := detectChange_neg self (probeUpdate c (slowOpt.getD 5) probe) nc hcond
    have hic : c.is_changed = Val.bool false := by rw [hc]
    have hlc : c.last_changed = self.last_changed := by rw [hc]
    rw [dget_to_dict_is_changed, dget_to_dict_last_changed]
    constructor
    · simp [hi, probeUpdate_is_changed, hic]
    · simp [hl, probeUpdate_last_changed, hlc]

/-- Witness for C1: previous status 200/fast, probed status 503/fast,
with the default threshold; the change branch fires. -/
theorem check_website_change_detection_witness :
    ∃ d, (check_website siteA Option.none
        (ProbeResult.success 503 "Service Unavailable" 1) "tc" "tk").2 = Except.ok d ∧
      ((pyEq (probeUpdate siteA ((Option.none : Option Int).getD 5)
          (ProbeResult.success 503 "Service Unavailable" 1)).http_status
            siteA.http_status = false ∨
        pyEq (probeUpdate siteA ((Option.none : Option Int).getD 5)
          (ProbeResult.success 503 "Service Unavailable" 1)).is_slow
            siteA.is_slow = false) →
        dget d "is_changed" = some (Val.bool true) ∧
        dget d "last_changed" = some (Val.str "tc")) ∧
      (pyEq (probeUpdate siteA ((Option.none : Option Int).getD 5)
          (ProbeResult.success 503 "Service Unavailable" 1)).http_status
            siteA.http_status = true ∧
        pyEq (probeUpdate siteA ((Option.none : Option Int).getD 5)
          (ProbeResult.success 503 "Service Unavailable" 1)).is_slow
            siteA.is_slow = true →
        dget d "is_changed" = some (Val.bool false) ∧
        dget d "last_changed" = some siteA.last_changed) :=
  check_website_change_detection siteA siteA Option.none
    (ProbeResult.success 503 "Service Unavailable" 1) "tc" "tk" (by decide)

/-- C2 counterexample: the previous record is down (`is_up = False`);
the probe raises `HTTPError 503`, i.e. a response carrying an error
status code was received, yet the produced record still has
`is_up = False`, not `True` as the claim demands. -/
theorem check_website_httpError_is_up_counterexample :
    ((check_website siteDown Option.none
        (ProbeResult.httpError 503 "Service Unavailable") "tc" "tk").2.toOption.map
      (fun d => dget d "is_up")) = some (some (Val.bool false)) ∧
    Val.bool false ≠ Val.bool true := by decide

/-- C2 amended: on the success path (a response delivered without a
transport exception) the produced record has `is_up = True`; on the
`HTTPError` path (error-status response surfaced as an exception) and on
the `URLError` path (network-level error) `is_up` keeps the value copied
from the previous record. -/
theorem check_website_is_up (self c : WebSite) (slowOpt : Option Int)
    (probe : ProbeResult) (nc nk : String)
    (h : WebSite.init (selfDict self) = Except.ok c) :
    ∃ d, (check_website self slowOpt probe nc nk).2 = Except.ok d ∧
      dget d "is_up" = some (match probe with
        | ProbeResult.success _ _ _ => Val.bool true
        | _ => self.is_up) := by
  have hc := init_selfDict_ok self c h
  rw [check_website_eq self c slowOpt probe nc nk h]
  refine ⟨_, rfl, ?_⟩
  rw [dget_to_dict_is_up]
  have hup : c.is_up = self.is_up := by rw [hc]
  cases probe
  · simp [detectChange_is_up, probeUpdate_success_is_up]
  · simp [detectChange_is_up, probeUpdate, hup]
  · simp [detectChange_is_up, probeUpdate, hup]

/-- Witness for the amended C2: a network-level error on a record whose
previous probe already failed keeps `is_up = False`. -/
theorem check_website_is_up_witness :
    ∃ d, (check_website siteDown Option.none (ProbeResult.urlError "timed out")
        "tc" "tk").2 = Except.ok d ∧
      dget d "is_up" = some (match ProbeResult.urlError "timed out" with
        | ProbeResult.success _ _ _ => Val.bool true
        | _ => siteDown.is_up) :=
  check_website_is_up siteDown siteDown Option.none (ProbeResult.urlError "timed out")
    "tc" "tk" (by decide)

/-- C3: on the success path the produced record has `is_slow = True` iff
the rounded elapsed time exceeds the `SlowResponseSeconds` threshold,
and an absent `SlowResponseSeconds` option means threshold 5. -/
theorem check_website_slow_threshold (self c : WebSite) (slowOpt : Option Int)
    (status : Int) (reason : String) (elapsed : Int) (nc nk : String)
    (h : WebSite.init (selfDict self) = Except.ok c) :
    ∃ d, (check_website self slowOpt (ProbeResult.success status reason elapsed)
        nc nk).2 = Except.ok d ∧
      dget d "is_slow" = some (Val.bool (decide (elapsed > slowOpt.getD 5))) ∧
      (slowOpt = Option.none → slowOpt.getD 5 = 5) := by
  rw [check_website_eq self c slowOpt (ProbeResult.success status reason elapsed) nc nk h]
  refine ⟨_, rfl, ?_, fun hn => by rw [hn]; rfl⟩
  rw [dget_to_dict_is_slow]
  simp [detectChange_is_slow, probeUpdate_success_is_slow]

/-- Witness for C3: elapsed 7 seconds against the default threshold 5 is
slow. -/
theorem check_website_slow_threshold_witness :
    ∃ d, (check_website siteA Option.none (ProbeResult.success 200 "OK" 7)
        "tc" "tk").2 = Except.ok d ∧
      dget d "is_slow" =
        some (Val.bool (decide ((7 : Int) > (Option.none : Option Int).getD 5))) ∧
      ((Option.none : Option Int) = Option.none →
        (Option.none : Option Int).getD 5 = 5) :=
  check_website_slow_threshold siteA siteA Option.none 200 "OK" 7 "tc" "tk" (by decide)

/-- C5: on the `URLError` path `check_website` returns normally with
`http_status = "N/A"`, `http_reason` the stringified error, and
`is_up`/`is_slow`/`elapsed_time` kept at the previous record's values. -/
theorem check_website_urlError_path (self c : WebSite) (slowOpt : Option Int)
    (msg nc nk : String)
    (h : WebSite.init (selfDict self) = Except.ok c) :
    ∃ d, (check_website self slowOpt (ProbeResult.urlError msg) nc nk).2 = Except.ok d ∧
      dget d "http_status" = some (Val.str "N/A") ∧
      dget d "http_reason" = some (Val.str msg) ∧
      dget d "is_up" = some self.is_up ∧
      dget d "is_slow" = some self.is_slow ∧
      dget d "elapsed_time" = some self.elapsed_time := by
  rw [check_website_eq self c slowOpt (ProbeResult.urlError msg) nc nk h]
  have hc := init_selfDict_ok self c h
  have hup : c.is_up = self.is_up := by rw [hc]
  have hsl : c.is_slow = self.is_slow := by rw [hc]
  have het : c.elapsed_time = self.elapsed_time := by rw [hc]
  refine ⟨_, rfl, ?_, ?_, ?_, ?_, ?_⟩
  · rw [dget_to_dict_http_status]; simp [detectChange_http_status, probeUpdate]
  · rw [dget_to_dict_http_reason]; simp [detectChange_http_reason, probeUpdate]
  · rw [dget_to_dict_is_up]; simp [detectChange_is_up, probeUpdate, hup]
  · rw [dget_to_dict_is_slow]; simp [detectChange_is_slow, probeUpdate, hsl]
  · rw [dget_to_dict_elapsed_time]; simp [detectChange_elapsed_time, probeUpdate, het]

/-- Witness for C5: a network-level failure against a previously-up
record. -/
theorem check_website_urlError_path_witness :
    ∃ d, (check_website siteA Option.none
        (ProbeResult.urlError "<urlopen error [Errno -2] Name or service not known>")
        "tc" "tk").2 = Except.ok d ∧
      dget d "http_status" = some (Val.str "N/A") ∧
      dget d "http_reason" =
        some (Val.str "<urlopen error [Errno -2] Name or service not known>") ∧
      dget d "is_up" = some siteA.is_up ∧
      dget d "is_slow" = some siteA.is_slow ∧
      dget d "elapsed_time" = some siteA.elapsed_time :=
  check_website_urlError_path siteA siteA Option.none
    "<urlopen error [Errno -2] Name or service not known>" "tc" "tk" (by decide)

/-- C7: immediately after a successful construction, `is_changed` is
`False`, whatever the input mapping contained. -/
theorem init_is_changed_false (site_obj : Dict) (w : WebSite)
    (h : WebSite.init site_obj = Except.ok w) :
    w.is_changed = Val.bool false := by
  rw [init_eq] at h
  split at h
  · split at h
    · cases h
    · split at h
      · rw [← Except.ok.inj h]
      · cases h
  · split at h <;> cases h

/-- Witness for C7. -/
theorem init_is_changed_false_witness : siteA.is_changed = Val.bool false :=
  init_is_changed_false (to_dict siteA) siteA (by decide)

/-- C8: `check_website` never mutates the record it is invoked on; every
update lands on the working copy `WebSite(self.__dict__)` — a fresh
record carrying the previous record's full attribute set with
`is_changed` reset — and only that copy's `to_dict()` is returned. -/
theorem check_website_frame (self c : WebSite) (slowOpt : Option Int)
    (probe : ProbeResult) (nc nk : String)
    (h : WebSite.init (selfDict self) = Except.ok c) :
    (check_website self slowOpt probe nc nk).1 = self ∧
    (check_website self slowOpt probe nc nk).2 =
      Except.ok (to_dict
        { detectChange self (probeUpdate c (slowOpt.getD 5) probe) nc with
            last_checked := Val.str nk }) ∧
    c = { self with is_changed := Val.bool false } := by
  rw [check_website_eq self c slowOpt probe nc nk h]
  exact ⟨rfl, rfl, init_selfDict_ok self c h⟩

/-- Witness for C8. -/
theorem check_website_frame_witness :
    (check_website siteA Option.none (ProbeResult.success 200 "OK" 1) "tc" "tk").1 =
      siteA ∧
    (check_website siteA Option.none (ProbeResult.success 200 "OK" 1) "tc" "tk").2 =
      Except.ok (to_dict
        { detectChange siteA
            (probeUpdate siteA ((Option.none : Option Int).getD 5)
              (ProbeResult.success 200 "OK" 1)) "tc" with
            last_checked := Val.str "tk" }) ∧
    siteA = { siteA with is_changed := Val.bool false } :=
  check_website_frame siteA siteA Option.none (ProbeResult.success 200 "OK" 1)
    "tc" "tk" (by decide)

/-- C4: rebuilding a record from its serialized flat representation and
serializing again reproduces every field, except that `is_changed` is
forced to `False`. -/
theorem to_dict_round_trip (w : WebSite) (s : String) (result : UrlParts)
    (hu : w.url = Val.str s) (hp : urlparse s = Except.ok result)
    (hs : result.scheme ≠ "") (hn : result.netloc ≠ "") :
    ∃ c, WebSite.init (to_dict w) = Except.ok c ∧
      to_dict c = forceIsChangedFalse (to_dict w) := by
  have h1 : pyGet (to_dict w) "url" (pyGet (to_dict w) "_url" Val.none) = w.url := by
    simp +decide [to_dict, pyGet, dget]
  have h2 : pyGet (to_dict w) "http_status" (pyGet (to_dict w) "_http_status" Val.none) =
      w.http_status := by simp +decide [to_dict, pyGet, dget]
  have h3 : pyGet (to_dict w) "http_reason" (pyGet (to_dict w) "_http_reason" Val.none) =
      w.http_reason := by simp +decide [to_dict, pyGet, dget]
  have h4 : pyGet (to_dict w) "last_checked" (pyGet (to_dict w) "_last_checked" Val.none) =
      w.last_checked := by simp +decide [to_dict, pyGet, dget]
  have h5 : pyGet (to_dict w) "last_changed" (pyGet (to_dict w) "_last_changed" Val.none) =
      w.last_changed := by simp +decide [to_dict, pyGet, dget]
  have h6 : pyGet (to_dict w) "elapsed_time" (pyGet (to_dict w) "_elapsed_time" Val.none) =
      w.elapsed_time := by simp +decide [to_dict, pyGet, dget]
  have h7 : pyGet (to_dict w) "is_up" (pyGet (to_dict w) "_is_up" (Val.bool false)) =
      w.is_up := by simp +decide [to_dict, pyGet, dget]
  have h8 : pyGet (to_dict w) "is_slow" (pyGet (to_dict w) "_is_slow" (Val.bool false)) =
      w.is_slow := by simp +decide [to_dict, pyGet, dget]
  refine ⟨{ w with is_changed := Val.bool false }, ?_, ?_⟩
  · rw [init_eq, h1, hu]
    simp [hp, hs, hn, h1, h2, h3, h4, h5, h6, h7, h8, hu]
  · simp +decide [to_dict, forceIsChangedFalse]

/-- Witness for C4. -/
theorem to_dict_round_trip_witness :
    ∃ c, WebSite.init (to_dict siteA) = Except.ok c ∧
      to_dict c = forceIsChangedFalse (to_dict siteA) :=
  to_dict_round_trip siteA "http://example.com"
    { scheme := "http", netloc := "example.com" } (by decide) (by decide)
    (by decide) (by decide)

/-- C6: construction succeeds whenever the url string parses with a
non-empty scheme and netloc, and fails with the invalid-URL
`ValueError` whenever the parsed scheme or netloc is absent. -/
theorem init_url_validation (site_obj : Dict) (s : String) (result : UrlParts)
    (hurl : pyGet site_obj "url" (pyGet site_obj "_url" Val.none) = Val.str s)
    (hp : urlparse s = Except.ok result) :
    (result.scheme ≠ "" ∧ result.netloc ≠ "" →
      ∃ w, WebSite.init site_obj = Except.ok w) ∧
    ((result.scheme = "" ∨ result.netloc = "") →
      WebSite.init site_obj = Except.error
        (InitError.invalidURL ("Invalid URL provided: " ++ s))) := by
  rw [init_eq, hurl]
  constructor
  · rintro ⟨hs, hn⟩
    exact ⟨{
        url := Val.str s,
        http_status := pyGet site_obj "http_status" (pyGet site_obj "_http_status" Val.none),
        http_reason := pyGet site_obj "http_reason" (pyGet site_obj "_http_reason" Val.none),
        last_checked := pyGet site_obj "last_checked" (pyGet site_obj "_last_checked" Val.none),
        last_changed := pyGet site_obj "last_changed" (pyGet site_obj "_last_changed" Val.none),
        elapsed_time := pyGet site_obj "elapsed_time" (pyGet site_obj "_elapsed_time" Val.none),
        is_changed := Val.bool false,
        is_up := pyGet site_obj "is_up" (pyGet site_obj "_is_up" (Val.bool false)),
        is_slow := pyGet site_obj "is_slow" (pyGet site_obj "_is_slow" (Val.bool false)) },
      by simp [hp, hs, hn]⟩
  · intro hbad
    have hno : ¬(result.scheme ≠ "" ∧ result.netloc ≠ "") := by
      rcases hbad with hb | hb <;> simp [hb]
    simp [hp, hno, Val.pyStr]

/-- Witness for C6: a well-formed absolute URL constructs successfully
(the failure direction's hypothesis is vacuous at this input). -/
theorem init_url_validation_witness :
    ((({ scheme := "http", netloc := "example.com" } : UrlParts).scheme ≠ "" ∧
      ({ scheme := "http", netloc := "example.com" } : UrlParts).netloc ≠ "" →
      ∃ w, WebSite.init [("url", Val.str "http://example.com")] = Except.ok w) ∧
     ((({ scheme := "http", netloc := "example.com" } : UrlParts).scheme = "" ∨
       ({ scheme := "http", netloc := "example.com" } : UrlParts).netloc = "") →
      WebSite.init [("url", Val.str "http://example.com")] = Except.error
        (InitError.invalidURL ("Invalid URL provided: " ++ "http://example.com")))) :=
  init_url_validation [("url", Val.str "http://example.com")] "http://example.com"
    { scheme := "http", netloc := "example.com" } (by decide) (by decide)

/-- C10 counterexample: `is_changed` is a Site Record field that
construction does not read from the input at all — with
`is_changed = True` under both the public and the internal key, the
constructed attribute is still `False`. -/
theorem init_is_changed_ignores_input :
    ((WebSite.init objIC).toOption.map WebSite.is_changed = some (Val.bool false)) ∧
    dget objIC "is_changed" = some (Val.bool true) := by decide

/-- C10 amended: for every field other than `is_changed`, construction
reads the input under the public name and falls back to the
underscore-prefixed name, the public name winning when both are present;
`is_changed` alone is set to `False` without consulting the input. -/
theorem init_dual_lookup (site_obj : Dict) (w : WebSite)
    (h : WebSite.init site_obj = Except.ok w) :
    w.url = pyGet site_obj "url" (pyGet site_obj "_url" Val.none) ∧
    w.http_status = pyGet site_obj "http_status" (pyGet site_obj "_http_status" Val.none) ∧
    w.http_reason = pyGet site_obj "http_reason" (pyGet site_obj "_http_reason" Val.none) ∧
    w.last_checked = pyGet site_obj "last_checked" (pyGet site_obj "_last_checked" Val.none) ∧
    w.last_changed = pyGet site_obj "last_changed" (pyGet site_obj "_last_changed" Val.none) ∧
    w.elapsed_time = pyGet site_obj "elapsed_time" (pyGet site_obj "_elapsed_time" Val.none) ∧
    w.is_up = pyGet site_obj "is_up" (pyGet site_obj "_is_up" (Val.bool false)) ∧
    w.is_slow = pyGet site_obj "is_slow" (pyGet site_obj "_is_slow" (Val.bool false)) ∧
    w.is_changed = Val.bool false ∧
    (∀ k kInternal dflt v, dget site_obj k = some v →
      pyGet site_obj k (pyGet site_obj kInternal dflt) = v) := by
  rw [init_eq] at h
  split at h
  · split at h
    · cases h
    · split at h
      · obtain rfl := Except.ok.inj h
        refine ⟨rfl, rfl, rfl, rfl, rfl, rfl, rfl, rfl, rfl, ?_⟩
        intro k kInternal dflt v hv
        simp [pyGet, hv]
      · cases h
  · split at h <;> cases h

/-- Witness for the amended C10: an input carrying `http_status` under
both key conventions, with distinct values. -/
theorem init_dual_lookup_witness :
    (WebSite.init (to_dict siteA)).toOption.map WebSite.http_status =
      some (pyGet (to_dict siteA) "http_status"
        (pyGet (to_dict siteA) "_http_status" Val.none)) := by
  obtain ⟨-, h2, -⟩ :=
    init_dual_lookup (to_dict siteA) { siteA with is_changed := Val.bool false }
      (by decide)
  decide

/-- The digest body, with the per-site line named: the inline
concatenation in `publish_changes` appends exactly `lineOf site` for
each site. -/
theorem digestMsg_eq (l : List WebSite) (u : String) :
    digestMsg l u =
      (l.foldl (fun msg site => msg ++ lineOf site)
        "The following websites are reporting a status change:\n\n") ++
      "\nYou can view the full website status here: " ++ u := by
  unfold digestMsg
  have hf : (fun (msg : String) (site : WebSite) =>
      msg ++ site.url.pyStr ++ ": status: " ++ site.http_status.pyStr ++ " - " ++
        site.http_reason.pyStr ++ "\n") =
      (fun msg site => msg ++ lineOf site) := by
    funext msg site
    simp [lineOf, String.append_assoc]
  rw [hf]

/-- Folding the digest lines only ever appends to the accumulator. -/
theorem foldl_line_extend (l : List WebSite) (m : String) :
    ∃ r, l.foldl (fun msg site => msg ++ lineOf site) m = m ++ r := by
  induction l generalizing m with
  | nil => exact ⟨"", by simp⟩
  | cons a l ih =>
    obtain ⟨r, hr⟩ := ih (m ++ lineOf a)
    exact ⟨lineOf a ++ r, by rw [List.foldl_cons, hr, String.append_assoc]⟩

/-- Every member's digest line occurs inside the folded digest body. -/
theorem foldl_line_mem (l : List WebSite) (site : WebSite) :
    ∀ m, site ∈ l → ∃ p q,
      l.foldl (fun msg site => msg ++ lineOf site) m = p ++ lineOf site ++ q := by
  induction l with
  | nil => intro m hmem; cases hmem
  | cons a l ih =>
    intro m hmem
    rcases List.mem_cons.mp hmem with rfl | hmem'
    · obtain ⟨r, hr⟩ := foldl_line_extend l (m ++ lineOf site)
      exact ⟨m, r, by rw [List.foldl_cons, hr]⟩
    · obtain ⟨p, q, hpq⟩ := ih (m ++ lineOf a) hmem'
      exact ⟨p, q, by rw [List.foldl_cons]; exact hpq⟩

/-- C9: with an empty changed-sites list `publish_changes` sends
nothing; with a non-empty list it sends exactly one digest message whose
body contains each changed site's URL and `http_status`. -/
theorem publish_changes_digest (status_url : String) :
    publish_changes [] status_url = Option.none ∧
    ∀ l : List WebSite, l ≠ [] → ∃ m, publish_changes l status_url = some m ∧
      ∀ site ∈ l, ∃ p q r,
        m = p ++ site.url.pyStr ++ q ++ site.http_status.pyStr ++ r := by
  refine ⟨rfl, ?_⟩
  intro l hl
  refine ⟨digestMsg l status_url, ?_, ?_⟩
  · unfold publish_changes
    rw [if_pos (List.length_pos.mpr hl)]
  · intro site hmem
    obtain ⟨p, q, hpq⟩ :=
      foldl_line_mem l site "The following websites are reporting a status change:\n\n"
        hmem
    refine ⟨p, ": status: ",
      " - " ++ site.http_reason.pyStr ++ "\n" ++ q ++
        ("\nYou can view the full website status here: " ++ status_url), ?_⟩
    rw [digestMsg_eq, hpq]
    simp [lineOf, String.append_assoc]

/-- Witness for C9: a one-element changed list produces one digest. -/
theorem publish_changes_digest_witness :
    ∃ m, publish_changes [siteA] "http://status.example" = some m ∧
      ∀ site ∈ [siteA], ∃ p q r,
        m = p ++ site.url.pyStr ++ q ++ site.http_status.pyStr ++ r :=
  (publish_changes_digest "http://status.example").2 [siteA] (by decide)
